import Mathlib

/-!
Shallow embedding of the pypdfium2 bitmap/buffer ownership layer
(`src/pypdfium2/_helpers/bitmap.py`), the version records
(`src/pypdfium2/version.py`) and the colour utility
(`src/pypdfium2/_helpers/utilities.py`).

Byte buffers are modelled as `List Nat`; the external PDFium C library is
modelled as a structure of oracle functions (`PdfiumLib`) covering exactly
the calls the wrapper makes; Python exceptions are an explicit error type.
-/

namespace Pypdfium2

/-- Python exceptions raised by the embedded code.  The spec's error
taxonomy maps onto them as follows: `InvalidArgument` is an `assert`
failure (`assertionError`), `AllocationError` and `TranslationError` are
`PdfiumError`s distinguished by message, `PrecondReferenceError` is the
`RuntimeError` raised by `get_posconv`. -/
inductive PyError where
  | assertionError
  | pdfiumError (msg : String)
  | runtimeError (msg : String)
  | keyError
  deriving DecidableEq, Repr

/-- A byte buffer (`ctypes.c_ubyte` array / `bytes`), one `Nat` per byte. -/
abbrev Buffer := List Nat

/-- The four PDFium bitmap formats usable by the wrapper
(`FPDFBitmap_Gray`, `FPDFBitmap_BGR`, `FPDFBitmap_BGRx`, `FPDFBitmap_BGRA`). -/
inductive BitmapFormat where
  | gray
  | bgr
  | bgrx
  | bgra
  deriving DecidableEq, Repr

/-- Modelled from the spec: channel count per pixel format
(`pypdfium2.internal.BitmapTypeToNChannels` is not under src/; the spec
describes the formats as grayscale, RGB, RGB-with-padding and RGBA, i.e.
1, 3, 4 and 4 bytes per pixel). -/
def BitmapTypeToNChannels : BitmapFormat → Nat
  | .gray => 1
  | .bgr => 3
  | .bgrx => 4
  | .bgra => 4

/-- Modelled from the spec: symbolic mode string per format
(`pypdfium2.internal.BitmapTypeToStr`, not under src/). -/
def BitmapTypeToStr : BitmapFormat → String
  | .gray => "L"
  | .bgr => "BGR"
  | .bgrx => "BGRX"
  | .bgra => "BGRA"

/-- Modelled from the spec: symbolic mode string per format under reverse
byte order (`pypdfium2.internal.BitmapTypeToStrReverse`, not under src/). -/
def BitmapTypeToStrReverse : BitmapFormat → String
  | .gray => "L"
  | .bgr => "RGB"
  | .bgrx => "RGBX"
  | .bgra => "RGBA"

/-- Modelled from the spec: inverse of `BitmapTypeToStr`
(`pypdfium2.internal.BitmapStrToConst`, not under src/). -/
def BitmapStrToConst (mode : String) : Option BitmapFormat :=
  if mode = "L" then some .gray
  else if mode = "BGR" then some .bgr
  else if mode = "BGRX" then some .bgrx
  else if mode = "BGRA" then some .bgra
  else none

/-- Modelled from the spec: inverse of `BitmapTypeToStrReverse`
(`pypdfium2.internal.BitmapStrReverseToConst`, not under src/). -/
def BitmapStrReverseToConst (mode : String) : Option BitmapFormat :=
  if mode = "L" then some .gray
  else if mode = "RGB" then some .bgr
  else if mode = "RGBX" then some .bgrx
  else if mode = "RGBA" then some .bgra
  else none

/-- A page object; Python object identity (`is`) is modelled by the id. -/
structure Page where
  id : Nat
  deriving DecidableEq, Repr

/-- The five pdfium canvas arguments recorded at render time
(start_x, start_y, size_x, size_y, rotate), as in `FPDF_RenderPageBitmap`. -/
structure PosArgs where
  start_x : Int
  start_y : Int
  size_x : Int
  size_y : Int
  rotate : Int
  deriving DecidableEq, Repr

/-- The library side of an `FPDF_BITMAP` handle, exposing what the wrapper
queries through `FPDFBitmap_GetWidth/GetHeight/GetFormat/GetStride/GetBuffer`.
`bufferPtr = none` models `FPDFBitmap_GetBuffer` returning a null pointer;
`some p` models a valid pointer giving access to the byte region `p`
(the wrapper's ctypes cast fixes the view to `stride * height` bytes,
which we take to be exactly the region the library hands out). -/
structure RawBitmap where
  width : Nat
  height : Nat
  format : BitmapFormat
  stride : Nat
  bufferPtr : Option Buffer
  deriving DecidableEq, Repr

/-- Model of the external PDFium C library (not part of this repository):
only the behaviour the wrapper relies on, as oracle functions.
`chooseStride` is the stride the library picks when `FPDFBitmap_CreateEx`
is called with stride 0; `alloc` is the library allocator (`none` = failure);
`deviceToPage` / `pageToDevice` are the coordinate transforms
(`none` models the C functions returning a false ok-flag). -/
structure PdfiumLib where
  chooseStride : Nat → BitmapFormat → Nat
  alloc : Nat → Option Buffer
  deviceToPage : Page → PosArgs → Int → Int → Option (Rat × Rat)
  pageToDevice : Page → PosArgs → Rat → Rat → Option (Int × Int)

/-- Model of `FPDFBitmap_CreateEx`: with a caller buffer, the handle uses
that buffer and the given stride; without one, the library allocates its
own buffer, choosing the stride itself when 0 is passed. -/
def FPDFBitmap_CreateEx (lib : PdfiumLib) (width height : Nat)
    (format : BitmapFormat) (buffer : Option Buffer) (stride : Nat) : RawBitmap :=
  match buffer with
  | some b =>
      { width := width, height := height, format := format,
        stride := stride, bufferPtr := some b }
  | none =>
      let s := if stride = 0 then lib.chooseStride width format else stride
      { width := width, height := height, format := format,
        stride := s, bufferPtr := lib.alloc (s * height) }

/-- Model of `FPDFBitmap_Create`: library-allocated, packed buffer;
the alpha flag selects BGRA vs. BGRx. -/
def FPDFBitmap_Create (lib : PdfiumLib) (width height : Nat)
    (use_alpha : Bool) : RawBitmap :=
  let format := if use_alpha then BitmapFormat.bgra else BitmapFormat.bgrx
  let stride := width * BitmapTypeToNChannels format
  { width := width, height := height, format := format,
    stride := stride, bufferPtr := lib.alloc (stride * height) }

/-- `PdfBitmap` wrapper object.  `pos_args` is the `_pos_args` slot: `none`
until a render records this bitmap against a page; once recorded, the first
component is the weak page reference *as it resolves at the time of the
`get_posconv` call* (`none` = the page was destroyed and the weakref is
dead), the second the five canvas arguments. -/
structure PdfBitmap where
  raw : RawBitmap
  buffer : Buffer
  width : Nat
  height : Nat
  stride : Nat
  format : BitmapFormat
  rev_byteorder : Bool
  n_channels : Nat
  mode : String
  pos_args : Option (Option Page × PosArgs)
  needs_free : Bool
  deriving DecidableEq, Repr

/-- `PdfBitmap.__init__`: records the arguments, derives `n_channels` and
`mode` from the lookup tables, initialises `_pos_args` to `None`, and hands
`needs_free` to the `AutoCloseable` base (modelled by the `needs_free`
field read by `closeFreesBuffer`). -/
def PdfBitmap.init (raw : RawBitmap) (buffer : Buffer) (width height stride : Nat)
    (format : BitmapFormat) (rev_byteorder needs_free : Bool) : PdfBitmap :=
  { raw := raw, buffer := buffer, width := width, height := height,
    stride := stride, format := format, rev_byteorder := rev_byteorder,
    n_channels := BitmapTypeToNChannels format,
    mode := if rev_byteorder then BitmapTypeToStrReverse format
            else BitmapTypeToStr format,
    pos_args := none,
    needs_free := needs_free }

/-- Modelled from the spec: the `AutoCloseable` base class
(`pypdfium2.internal`, not under src/) stores the `needs_free` flag and,
on close, calls `FPDFBitmap_Destroy`, which frees the underlying buffer
iff the buffer is library-allocated — exactly when `needs_free` was set
(spec section 9: a thin finalizer object wrapping a raw library handle with
a boolean needs-free flag, destruction dispatching on the flag). -/
def PdfBitmap.closeFreesBuffer (bm : PdfBitmap) : Bool :=
  bm.needs_free

/-- `PdfBitmap.from_raw`: queries width/height/format/stride from the
handle; without an external buffer it fetches the library buffer pointer
(raising `PdfiumError` on null) and marks the bitmap as needing free;
with an external buffer it wraps that buffer and does not free. -/
def from_raw (raw : RawBitmap) (rev_byteorder : Bool := false)
    (ex_buffer : Option Buffer := none) : Except PyError PdfBitmap :=
  let width := raw.width
  let height := raw.height
  let format := raw.format
  let stride := raw.stride
  match ex_buffer with
  | none =>
      match raw.bufferPtr with
      | none => .error (.pdfiumError "Failed to get bitmap buffer (null pointer returned)")
      | some p =>
          .ok (PdfBitmap.init raw p width height stride format rev_byteorder true)
  | some b =>
      .ok (PdfBitmap.init raw b width height stride format rev_byteorder false)

/-- `PdfBitmap.new_native`: resolves stride (explicit, asserted to be at
least `width * bpc`, else packed) and buffer (explicit, asserted to hold at
least `stride * height` bytes, else freshly allocated zero-initialised),
creates the handle with `FPDFBitmap_CreateEx` and wraps it via `from_raw`
with the resolved buffer as external buffer. -/
def new_native (lib : PdfiumLib) (width height : Nat) (format : BitmapFormat)
    (rev_byteorder : Bool := false) (buffer : Option Buffer := none)
    (stride : Option Nat := none) : Except PyError PdfBitmap :=
  let bpc := BitmapTypeToNChannels format
  let strideV := stride.getD (width * bpc)
  if stride.isSome ∧ strideV < width * bpc then
    .error .assertionError
  else
    let bufferV := buffer.getD (List.replicate (strideV * height) 0)
    if buffer.isSome ∧ bufferV.length < strideV * height then
      .error .assertionError
    else
      let raw := FPDFBitmap_CreateEx lib width height format (some bufferV) strideV
      from_raw raw rev_byteorder (some bufferV)

/-- `PdfBitmap.new_foreign`: library-allocated buffer via
`FPDFBitmap_CreateEx`, packed stride on request, wrapped without an
external buffer. -/
def new_foreign (lib : PdfiumLib) (width height : Nat) (format : BitmapFormat)
    (rev_byteorder : Bool := false) (force_packed : Bool := false) :
    Except PyError PdfBitmap :=
  let stride := if force_packed then width * BitmapTypeToNChannels format else 0
  let raw := FPDFBitmap_CreateEx lib width height format none stride
  from_raw raw rev_byteorder none

/-- `PdfBitmap.new_foreign_simple`: library-allocated buffer via
`FPDFBitmap_Create`, wrapped without an external buffer. -/
def new_foreign_simple (lib : PdfiumLib) (width height : Nat)
    (use_alpha : Bool) (rev_byteorder : Bool := false) :
    Except PyError PdfBitmap :=
  let raw := FPDFBitmap_Create lib width height use_alpha
  from_raw raw rev_byteorder none

/-- `PdfPosConv` object: the page and the five recorded canvas arguments. -/
structure PdfPosConv where
  page : Page
  pos_args : PosArgs
  deriving DecidableEq, Repr

/-- `PdfBitmap.get_posconv`: if no render parameters were recorded
(`_pos_args` is `None`) or the weakref does not resolve to the very page
passed in (dead weakref resolves to `None`, which is never identical to a
page object), raise `RuntimeError`; otherwise build the converter from the
page and the recorded arguments.  No library call is involved. -/
def PdfBitmap.get_posconv (bm : PdfBitmap) (page : Page) :
    Except PyError PdfPosConv :=
  match bm.pos_args with
  | none => .error (.runtimeError "This bitmap does not belong to the given page.")
  | some (wref, args) =>
      if wref = some page then .ok { page := page, pos_args := args }
      else .error (.runtimeError "This bitmap does not belong to the given page.")

/-- `PdfPosConv.to_page`: delegates to `FPDF_DeviceToPage` (device ints in,
`c_double` out, modelled over `Rat`); raises `PdfiumError` iff the library
reports failure. -/
def PdfPosConv.to_page (lib : PdfiumLib) (pc : PdfPosConv)
    (bitmap_x bitmap_y : Int) : Except PyError (Rat × Rat) :=
  match lib.deviceToPage pc.page pc.pos_args bitmap_x bitmap_y with
  | none => .error (.pdfiumError "Failed to translate to page coordinates.")
  | some v => .ok v

/-- `PdfPosConv.to_bitmap`: delegates to `FPDF_PageToDevice` (`c_double`
in, `c_int` out — the `Int × Int` result type is the pixel-snapping);
raises `PdfiumError` iff the library reports failure. -/
def PdfPosConv.to_bitmap (lib : PdfiumLib) (pc : PdfPosConv)
    (page_x page_y : Rat) : Except PyError (Int × Int) :=
  match lib.pageToDevice pc.page pc.pos_args page_x page_y with
  | none => .error (.pdfiumError "Failed to translate to bitmap coordinates.")
  | some v => .ok v

/-- A PIL image: mode string, size, and pixel data (one channel-value list
per pixel, row major).  PIL itself is an external library; only the
operations the wrapper uses are modelled. -/
structure PILImage where
  mode : String
  width : Nat
  height : Nat
  pixels : List (List Nat)
  deriving DecidableEq, Repr

/-- `PIL.Image.tobytes()`: the packed pixel data, as a fresh copy. -/
def pilTobytes (img : PILImage) : Buffer :=
  img.pixels.flatten

/-- The channel reordering performed by the split/merge passages of
`_pil_convert_for_pdfium`: `merge` of the split channels with the first
and third swapped, i.e. RGB(A/X) to BGR(A/X) per pixel. -/
def swapRB (px : List Nat) : List Nat :=
  match px with
  | r :: g :: b :: rest => b :: g :: r :: rest
  | other => other

/-- `_pil_convert_for_pdfium`: normalise the mode (1 to L, RGB* kept,
alpha modes to RGBA, everything else to RGB; the `convert` oracle models
PIL's external mode-conversion semantics), then swap RGB(A/X) channel
order to BGR(A/X) via split + merge. -/
def pil_convert_for_pdfium (convert : PILImage → String → PILImage)
    (pil_image : PILImage) : PILImage :=
  let img :=
    if pil_image.mode = "1" then convert pil_image "L"
    else if pil_image.mode.startsWith "RGB" then pil_image
    else if pil_image.mode.contains (Char.ofNat 65) then convert pil_image "RGBA"
    else convert pil_image "RGB"
  if img.mode = "RGB" ∨ img.mode = "RGBA" ∨ img.mode = "RGBX" then
    { img with pixels := img.pixels.map swapRB }
  else img

/-- The image/format resolution step of `from_pil` (lines 272-277): use
the image as-is when its mode is a direct bitmap mode, otherwise convert
it and look the converted mode up in the reverse table. -/
def from_pil_resolved (convert : PILImage → String → PILImage)
    (pil_image : PILImage) : PILImage × Option BitmapFormat :=
  match BitmapStrToConst pil_image.mode with
  | some format => (pil_image, some format)
  | none =>
      let img2 := pil_convert_for_pdfium convert pil_image
      (img2, BitmapStrReverseToConst img2.mode)

/-- `PdfBitmap.from_pil`: resolve image and format, then create the bitmap
with `new_native`, passing `tobytes()` (a copy of the pixel data) as the
explicit buffer.  A `keyError` models the Python `KeyError` should the
conversion oracle return a mode outside the reverse table. -/
def from_pil (convert : PILImage → String → PILImage) (lib : PdfiumLib)
    (pil_image : PILImage) : Except PyError PdfBitmap :=
  let resolved := from_pil_resolved convert pil_image
  match resolved.2 with
  | none => .error .keyError
  | some format =>
      new_native lib resolved.1.width resolved.1.height format false
        (some (pilTobytes resolved.1)) none

/- ### Version records (`src/pypdfium2/version.py`)

The records are plain Python objects whose `__init__` fills the instance
dictionary via `setattr` and finally stores a closure under the key
`__setattr__` *in the instance dictionary*.  We model the instance
dictionary explicitly, because the claim hinges on Python's attribute
assignment semantics. -/

/-- A Python value as far as the version records need. -/
inductive PyVal where
  | vint (n : Int)
  | vstr (s : String)
  | vbool (b : Bool)
  | vnone
  /-- a tuple of ints (only `api_tag` is stored as a tuple) -/
  | vtuple (elems : List Int)
  /-- the local closure `frozen_setattr` defined inside `__init__` -/
  | vfrozenSetattrFn
  deriving DecidableEq, Repr

/-- A Python instance dictionary (insertion ordered). -/
abbrev PyDict := List (String × PyVal)

def dictSet (d : PyDict) (k : String) (v : PyVal) : PyDict :=
  match d with
  | [] => [(k, v)]
  | (k0, v0) :: rest =>
      if k0 = k then (k, v) :: rest else (k0, v0) :: dictSet rest k v

def dictGet (d : PyDict) (k : String) : Option PyVal :=
  match d with
  | [] => none
  | (k0, v0) :: rest => if k0 = k then some v0 else dictGet rest k

/-- The Python attribute assignment *statement* `obj.name = value`.
Per the Python data model, implicit invocations of special methods such as
`__setattr__` are looked up on the object's type, never in the instance
dictionary.  Neither `_version_interface` nor its subclasses define
`__setattr__` in a class body (the source only stores a function under
that name in the instance dictionary), so the lookup finds the default
`object.__setattr__`, which simply updates the instance dictionary. -/
def attrAssignStmt (dict : PyDict) (name : String) (v : PyVal) : PyDict :=
  dictSet dict name v

/-- An *explicit call* `obj.__setattr__(name, value)`: ordinary attribute
lookup, which does consult the instance dictionary first and therefore
finds the stored `frozen_setattr` closure, raising `AttributeError`. -/
def explicitSetattrCall (dict : PyDict) (name : String) (v : PyVal) :
    Except String PyDict :=
  match dictGet dict "__setattr__" with
  | some .vfrozenSetattrFn =>
      .error "Version class is immutable - assignment not allowed"
  | _ => .ok (dictSet dict name v)

/-- The version.json data consumed by `_version_pypdfium2`. -/
structure VersionData where
  major : Int
  minor : Int
  patch : Int
  beta : Option Int
  n_commits : Int
  commit_hash : Option String
  dirty : Bool
  data_source : String
  is_editable : Option Bool
  deriving DecidableEq, Repr

def pyOfOptInt : Option Int → PyVal
  | none => .vnone
  | some n => .vint n

def pyOfOptStr : Option String → PyVal
  | none => .vnone
  | some s => .vstr s

def pyOfOptBool : Option Bool → PyVal
  | none => .vnone
  | some b => .vbool b

/-- `_version_interface._craft_tag`: dot-joined string of the tag fields. -/
def craft_tag (api_tag : List Int) : String :=
  String.intercalate "." (api_tag.map toString)

/-- `_version_interface._craft_desc`: `+`-prefixed dot-joined local
version (commit count and hash when past the tag, plus a suffix). -/
def craft_desc (n_commits : Int) (commit_hash : Option String)
    (suffix : List String) : String :=
  let local_ver :=
    (if n_commits > 0 then [toString n_commits, (commit_hash.map id).getD "None"]
     else []) ++ suffix
  if local_ver.isEmpty then "" else "+" ++ String.intercalate "." local_ver

/-- `_version_pypdfium2.__init__` (via `_version_interface.__init__`):
fills the instance dictionary with the json fields, `api_tag`, the hook's
`tag`/`desc`, and `version`; finally stores `frozen_setattr` under the key
`__setattr__` in the instance dictionary.  All assignments inside
`__init__` go through the default `object.__setattr__` (the instance-dict
entry does not intercept them, nor anything later). -/
def version_pypdfium2_init (d : VersionData) : PyDict :=
  let d0 : PyDict :=
    [("major", .vint d.major), ("minor", .vint d.minor),
     ("patch", .vint d.patch), ("beta", pyOfOptInt d.beta),
     ("n_commits", .vint d.n_commits), ("hash", pyOfOptStr d.commit_hash),
     ("dirty", .vbool d.dirty), ("data_source", .vstr d.data_source),
     ("is_editable", pyOfOptBool d.is_editable)]
  let api_tag := [d.major, d.minor, d.patch]
  let d1 := dictSet d0 "api_tag" (.vtuple api_tag)
  let tag := craft_tag api_tag ++
    (match d.beta with | none => "" | some b => "b" ++ toString b)
  let desc0 := craft_desc d.n_commits d.commit_hash
    (if d.dirty then ["dirty"] else [])
  let desc1 := if d.data_source ≠ "git" then desc0 ++ ":" ++ d.data_source
               else desc0
  let desc := if d.is_editable = some true then desc1 ++ "@editable" else desc1
  let d2 := dictSet (dictSet d1 "tag" (.vstr tag)) "desc" (.vstr desc)
  let d3 := dictSet d2 "version" (.vstr (tag ++ desc))
  dictSet d3 "__setattr__" .vfrozenSetattrFn

/- ### Colour utility (`src/pypdfium2/_helpers/utilities.py`) -/

/-- `hex(c)[2:]` for a non-negative int: lowercase hex digits, no prefix. -/
def pyHexBody (c : Nat) : List Char :=
  Nat.toDigits 16 c

/-- `_hex_digits`: the hex body, zero-padded to two characters. -/
def hex_digits (c : Nat) : List Char :=
  let hxc := pyHexBody c
  if hxc.length = 1 then Char.ofNat 48 :: hxc else hxc

/-- Value of a lowercase hex digit character (`int` accepts more, but the
code only ever feeds it digits produced by `hex`). -/
def hexCharVal (ch : Char) : Nat :=
  if ch.toNat ≤ 57 then ch.toNat - 48 else ch.toNat - 97 + 10

/-- `int(s, 0)` applied to the built string `"0x" + digits`: the base-16
value of the digit characters. -/
def pyIntOfHexDigits (l : List Char) : Nat :=
  l.foldl (fun acc ch => 16 * acc + hexCharVal ch) 0

/-- `colour_as_hex`: asserts each of (a, r, g, b) is an int in 0..255,
concatenates their two-digit hex representations after `"0x"` and parses
the result back with `int(_, 0)`. -/
def colour_as_hex (r g b : Int) (a : Int := 255) : Except PyError Int :=
  let colours := [a, r, g, b]
  if _h : ∀ c ∈ colours, 0 ≤ c ∧ c ≤ 255 then
    let digits := colours.foldl (fun acc c => acc ++ hex_digits c.toNat) []
    .ok (pyIntOfHexDigits digits)
  else
    .error .assertionError

/-! ## Sample instances used by witnesses -/

/-- A well-behaved concrete library model. -/
def sampleLib : PdfiumLib :=
  { chooseStride := fun w format => w * BitmapTypeToNChannels format,
    alloc := fun n => some (List.replicate n 0),
    deviceToPage := fun _ _ dx dy => some ((dx : Rat), (dy : Rat)),
    pageToDevice := fun _ _ _ _ => some (0, 0) }

/-- A library model whose allocator and transforms fail. -/
def sampleLibFail : PdfiumLib :=
  { chooseStride := fun w format => w * BitmapTypeToNChannels format,
    alloc := fun _ => none,
    deviceToPage := fun _ _ _ _ => none,
    pageToDevice := fun _ _ _ _ => none }

/-- A concrete raw handle with a valid library buffer pointer. -/
def sampleRaw : RawBitmap :=
  { width := 1, height := 1, format := .gray, stride := 1, bufferPtr := some [0] }

/-- A concrete raw handle whose buffer pointer is null. -/
def sampleRawNull : RawBitmap :=
  { width := 1, height := 1, format := .gray, stride := 1, bufferPtr := none }

/-! ## Helper lemmas -/

theorem from_raw_some_eq (raw : RawBitmap) (rev : Bool) (b : Buffer) :
    from_raw raw rev (some b) =
      .ok (PdfBitmap.init raw b raw.width raw.height raw.stride raw.format rev false) :=
  rfl

theorem from_raw_some_needs_free (raw : RawBitmap) (rev : Bool) (b : Buffer)
    (bm : PdfBitmap) (h : from_raw raw rev (some b) = .ok bm) :
    bm.needs_free = false ∧ bm.buffer = b := by
  rw [from_raw_some_eq] at h
  cases h
  exact ⟨rfl, rfl⟩

theorem from_raw_none_needs_free (raw : RawBitmap) (rev : Bool)
    (bm : PdfBitmap) (h : from_raw raw rev none = .ok bm) :
    bm.needs_free = true := by
  unfold from_raw at h
  cases hb : raw.bufferPtr with
  | none => rw [hb] at h; cases h
  | some p => rw [hb] at h; cases h; rfl

theorem new_native_ok_meta (lib : PdfiumLib) (w h : Nat) (format : BitmapFormat)
    (rev : Bool) (b : Option Buffer) (st : Option Nat) (bm : PdfBitmap)
    (hok : new_native lib w h format rev b st = .ok bm) :
    bm.needs_free = false ∧
    bm.buffer = b.getD (List.replicate
      (st.getD (w * BitmapTypeToNChannels format) * h) 0) := by
  simp only [new_native] at hok
  split at hok
  · cases hok
  · split at hok
    · cases hok
    · exact from_raw_some_needs_free _ _ _ _ hok

/-! ## Claims -/

/-- C1: ownership invariant.  A bitmap wrapped around an externally
supplied buffer (`from_raw` with a buffer, in particular every `new_native`
result) never frees the wrapper/caller-owned buffer on close, while a
bitmap whose buffer came from the library (`from_raw` without an external
buffer, in particular `new_foreign` and `new_foreign_simple`) frees the
library-owned buffer on close. -/
theorem bitmap_ownership :
    (∀ raw rev b bm, from_raw raw rev (some b) = .ok bm →
        bm.closeFreesBuffer = false)
  ∧ (∀ raw rev bm, from_raw raw rev none = .ok bm →
        bm.closeFreesBuffer = true)
  ∧ (∀ lib w h format rev b st bm, new_native lib w h format rev b st = .ok bm →
        bm.closeFreesBuffer = false)
  ∧ (∀ lib w h format rev fp bm, new_foreign lib w h format rev fp = .ok bm →
        bm.closeFreesBuffer = true)
  ∧ (∀ lib w h ua rev bm, new_foreign_simple lib w h ua rev = .ok bm →
        bm.closeFreesBuffer = true) := by
  refine ⟨?_, ?_, ?_, ?_, ?_⟩
  · intro raw rev b bm hok
    exact (from_raw_some_needs_free raw rev b bm hok).1
  · intro raw rev bm hok
    exact from_raw_none_needs_free raw rev bm hok
  · intro lib w h format rev b st bm hok
    exact (new_native_ok_meta lib w h format rev b st bm hok).1
  · intro lib w h format rev fp bm hok
    exact from_raw_none_needs_free _ _ _ hok
  · intro lib w h ua rev bm hok
    exact from_raw_none_needs_free _ _ _ hok

/-- Witness for C1: the ownership flag on concrete instances of all four
construction modes. -/
theorem bitmap_ownership_witness :
    (from_raw sampleRaw false (some [0])).map PdfBitmap.closeFreesBuffer = .ok false
  ∧ (from_raw sampleRaw false none).map PdfBitmap.closeFreesBuffer = .ok true
  ∧ (new_native sampleLib 1 1 .gray false none none).map PdfBitmap.closeFreesBuffer = .ok false
  ∧ (new_foreign sampleLib 1 1 .gray false false).map PdfBitmap.closeFreesBuffer = .ok true
  ∧ (new_foreign_simple sampleLib 1 1 true false).map PdfBitmap.closeFreesBuffer = .ok true := by
  refine ⟨?_, ?_, ?_, ?_, ?_⟩
  · obtain ⟨bm, hbm⟩ : ∃ bm, from_raw sampleRaw false (some [0]) = .ok bm := ⟨_, rfl⟩
    rw [hbm, Except.map, bitmap_ownership.1 sampleRaw false [0] bm hbm]
  · obtain ⟨bm, hbm⟩ : ∃ bm, from_raw sampleRaw false none = .ok bm := ⟨_, rfl⟩
    rw [hbm, Except.map, bitmap_ownership.2.1 sampleRaw false bm hbm]
  · obtain ⟨bm, hbm⟩ : ∃ bm, new_native sampleLib 1 1 .gray false none none = .ok bm := ⟨_, rfl⟩
    rw [hbm, Except.map, bitmap_ownership.2.2.1 sampleLib 1 1 .gray false none none bm hbm]
  · obtain ⟨bm, hbm⟩ : ∃ bm, new_foreign sampleLib 1 1 .gray false false = .ok bm := ⟨_, rfl⟩
    rw [hbm, Except.map, bitmap_ownership.2.2.2.1 sampleLib 1 1 .gray false false bm hbm]
  · obtain ⟨bm, hbm⟩ : ∃ bm, new_foreign_simple sampleLib 1 1 true false = .ok bm := ⟨_, rfl⟩
    rw [hbm, Except.map, bitmap_ownership.2.2.2.2 sampleLib 1 1 true false bm hbm]

/-- C2: `new_native` rejects an explicit stride below `width * channels`
and an explicit buffer smaller than `stride * height` with an assertion
failure (the spec's `InvalidArgument`); no bitmap is created in either
case. -/
theorem new_native_invalid_args :
    (∀ lib w h format rev b s,
        s < w * BitmapTypeToNChannels format →
        new_native lib w h format rev b (some s) = .error .assertionError)
  ∧ (∀ lib w h format rev (b : Buffer) st,
        b.length < st.getD (w * BitmapTypeToNChannels format) * h →
        new_native lib w h format rev (some b) st = .error .assertionError) := by
  constructor
  · intro lib w h format rev b s hs
    simp [new_native, hs]
  · intro lib w h format rev b st hb
    cases st with
    | none =>
        simp only [Option.getD_none] at hb
        simp [new_native, hb]
    | some s =>
        by_cases hs : s < w * BitmapTypeToNChannels format
        · simp [new_native, hs]
        · simp only [Option.getD_some] at hb
          simp [new_native, hs, hb]

/-- Witness for C2: a stride of 2 for a 1-pixel-wide BGR bitmap, and a
3-byte buffer for a 2x2 grayscale bitmap, are both rejected. -/
theorem new_native_invalid_args_witness :
    new_native sampleLib 1 1 .bgr false none (some 2) = .error .assertionError
  ∧ new_native sampleLib 2 2 .gray false (some [0, 0, 0]) none = .error .assertionError := by
  constructor
  · exact new_native_invalid_args.1 sampleLib 1 1 .bgr false none 2 (by decide)
  · exact new_native_invalid_args.2 sampleLib 2 2 .gray false [0, 0, 0] none (by decide)

/-- C4: with no custom stride and no custom buffer, `new_native` succeeds
with a fully packed stride of `width * channels(format)` and a freshly
allocated, zero-initialised buffer of `stride * height` bytes. -/
theorem new_native_packed_defaults :
    ∀ (lib : PdfiumLib) (w h : Nat) (format : BitmapFormat) (rev : Bool),
      0 < w → 0 < h →
      (new_native lib w h format rev none none).map
          (fun bm => (bm.stride, bm.buffer)) =
        .ok (w * BitmapTypeToNChannels format,
             List.replicate (w * BitmapTypeToNChannels format * h) 0) := by
  intro lib w h format rev _hw _hh
  simp [new_native, from_raw, FPDFBitmap_CreateEx, PdfBitmap.init, Except.map]

/-- Witness for C4: a 2x3 BGR bitmap gets stride 6 and 18 zero bytes. -/
theorem new_native_packed_defaults_witness :
    (new_native sampleLib 2 3 .bgr false none none).map
        (fun bm => (bm.stride, bm.buffer)) =
      .ok (6, List.replicate 18 0) :=
  new_native_packed_defaults sampleLib 2 3 .bgr false (by decide) (by decide)

/-- C9: `from_raw` without an external buffer raises `PdfiumError` (the
spec's `AllocationError`) exactly when the library returns a null buffer
pointer; with an external buffer it always succeeds, wrapping that buffer,
regardless of the library pointer. -/
theorem from_raw_alloc_spec :
    ∀ (raw : RawBitmap) (rev : Bool),
      (raw.bufferPtr = none →
        from_raw raw rev none =
          .error (.pdfiumError "Failed to get bitmap buffer (null pointer returned)"))
  ∧ (∀ b : Buffer, ∃ bm, from_raw raw rev (some b) = .ok bm ∧ bm.buffer = b) := by
  intro raw rev
  constructor
  · intro hnull
    unfold from_raw
    rw [hnull]
  · intro b
    exact ⟨_, from_raw_some_eq raw rev b, rfl⟩

/-- Witness for C9: a null pointer raises on the library path, while an
external buffer succeeds even on the same null-pointer handle. -/
theorem from_raw_alloc_spec_witness :
    from_raw sampleRawNull false none =
      .error (.pdfiumError "Failed to get bitmap buffer (null pointer returned)")
  ∧ ∃ bm, from_raw sampleRawNull false (some [3]) = .ok bm ∧ bm.buffer = [3] :=
  ⟨(from_raw_alloc_spec sampleRawNull false).1 rfl,
   (from_raw_alloc_spec sampleRawNull false).2 [3]⟩

/-- Concrete canvas arguments for witnesses. -/
def sampleArgs : PosArgs :=
  { start_x := 0, start_y := 0, size_x := 100, size_y := 200, rotate := 0 }

/-- A concrete bitmap (native, 1x1 grayscale). -/
def sampleBitmap : PdfBitmap :=
  PdfBitmap.init sampleRaw [0] 1 1 1 .gray false false

/-- C3: `get_posconv` raises `RuntimeError` (the spec's
`PrecondReferenceError`) when no render parameters were recorded, when the
recorded weak page reference is dead, or when it resolves to a different
page; otherwise it returns a `PdfPosConv` for the page and the five
recorded parameters.  The checks are performed without any library call
(`get_posconv` does not consult the `PdfiumLib` model at all). -/
theorem get_posconv_spec :
    ∀ (bm : PdfBitmap) (page : Page),
      (bm.pos_args = none →
        bm.get_posconv page =
          .error (.runtimeError "This bitmap does not belong to the given page."))
  ∧ (∀ args, bm.pos_args = some (none, args) →
        bm.get_posconv page =
          .error (.runtimeError "This bitmap does not belong to the given page."))
  ∧ (∀ wref args, bm.pos_args = some (wref, args) → wref ≠ some page →
        bm.get_posconv page =
          .error (.runtimeError "This bitmap does not belong to the given page."))
  ∧ (∀ args, bm.pos_args = some (some page, args) →
        bm.get_posconv page = .ok { page := page, pos_args := args }) := by
  intro bm page
  refine ⟨?_, ?_, ?_, ?_⟩
  · intro hnone
    unfold PdfBitmap.get_posconv
    rw [hnone]
  · intro args hdead
    unfold PdfBitmap.get_posconv
    rw [hdead]
    simp
  · intro wref args hsome hne
    unfold PdfBitmap.get_posconv
    rw [hsome]
    simp [hne]
  · intro args hsome
    unfold PdfBitmap.get_posconv
    rw [hsome]
    simp

/-- Witness for C3: a bitmap with no recorded parameters, one with a dead
weakref, one recorded against page 1 but queried with page 2, and the
matching query on page 1. -/
theorem get_posconv_spec_witness :
    sampleBitmap.get_posconv ⟨1⟩ =
      .error (.runtimeError "This bitmap does not belong to the given page.")
  ∧ ({ sampleBitmap with pos_args := some (none, sampleArgs) } :
      PdfBitmap).get_posconv ⟨1⟩ =
      .error (.runtimeError "This bitmap does not belong to the given page.")
  ∧ ({ sampleBitmap with pos_args := some (some ⟨1⟩, sampleArgs) } :
      PdfBitmap).get_posconv ⟨2⟩ =
      .error (.runtimeError "This bitmap does not belong to the given page.")
  ∧ ({ sampleBitmap with pos_args := some (some ⟨1⟩, sampleArgs) } :
      PdfBitmap).get_posconv ⟨1⟩ =
      .ok { page := ⟨1⟩, pos_args := sampleArgs } := by
  refine ⟨?_, ?_, ?_, ?_⟩
  · exact (get_posconv_spec sampleBitmap ⟨1⟩).1 rfl
  · exact (get_posconv_spec _ ⟨1⟩).2.1 sampleArgs rfl
  · exact (get_posconv_spec _ ⟨2⟩).2.2.1 (some ⟨1⟩) sampleArgs rfl (by decide)
  · exact (get_posconv_spec _ ⟨1⟩).2.2.2 sampleArgs rfl

/-- C5: `to_page` delegates to the library's device-to-page transform and
raises `PdfiumError` (the spec's `TranslationError`) exactly when the
library reports failure, returning the library's coordinates otherwise;
`to_bitmap` does the same with the page-to-device transform, and its
successful results are the library's `c_int` outputs, hence integral
(`Int × Int`). -/
theorem posconv_translate_spec :
    ∀ (lib : PdfiumLib) (pc : PdfPosConv) (dx dy : Int) (px py : Rat),
      (lib.deviceToPage pc.page pc.pos_args dx dy = none →
        pc.to_page lib dx dy =
          .error (.pdfiumError "Failed to translate to page coordinates."))
  ∧ (∀ v, lib.deviceToPage pc.page pc.pos_args dx dy = some v →
        pc.to_page lib dx dy = .ok v)
  ∧ (lib.pageToDevice pc.page pc.pos_args px py = none →
        pc.to_bitmap lib px py =
          .error (.pdfiumError "Failed to translate to bitmap coordinates."))
  ∧ (∀ q : Int × Int, lib.pageToDevice pc.page pc.pos_args px py = some q →
        pc.to_bitmap lib px py = .ok q) := by
  intro lib pc dx dy px py
  refine ⟨?_, ?_, ?_, ?_⟩
  · intro hfail
    unfold PdfPosConv.to_page
    rw [hfail]
  · intro v hok
    unfold PdfPosConv.to_page
    rw [hok]
  · intro hfail
    unfold PdfPosConv.to_bitmap
    rw [hfail]
  · intro q hok
    unfold PdfPosConv.to_bitmap
    rw [hok]

/-- Witness for C5: both transforms on a concrete converter, against the
failing and the succeeding library model. -/
theorem posconv_translate_spec_witness :
    PdfPosConv.to_page sampleLibFail ⟨⟨1⟩, sampleArgs⟩ 3 4 =
      .error (.pdfiumError "Failed to translate to page coordinates.")
  ∧ PdfPosConv.to_page sampleLib ⟨⟨1⟩, sampleArgs⟩ 3 4 = .ok ((3 : Rat), (4 : Rat))
  ∧ PdfPosConv.to_bitmap sampleLibFail ⟨⟨1⟩, sampleArgs⟩ (1 / 2) (3 / 2) =
      .error (.pdfiumError "Failed to translate to bitmap coordinates.")
  ∧ PdfPosConv.to_bitmap sampleLib ⟨⟨1⟩, sampleArgs⟩ (1 / 2) (3 / 2) = .ok (0, 0) := by
  refine ⟨?_, ?_, ?_, ?_⟩
  · exact (posconv_translate_spec sampleLibFail ⟨⟨1⟩, sampleArgs⟩ 3 4 (1/2) (3/2)).1 rfl
  · exact (posconv_translate_spec sampleLib ⟨⟨1⟩, sampleArgs⟩ 3 4 (1/2) (3/2)).2.1 _ rfl
  · exact (posconv_translate_spec sampleLibFail ⟨⟨1⟩, sampleArgs⟩ 3 4 (1/2) (3/2)).2.2.1 rfl
  · exact (posconv_translate_spec sampleLib ⟨⟨1⟩, sampleArgs⟩ 3 4 (1/2) (3/2)).2.2.2 _ rfl

/-- A concrete 2x1 grayscale PIL image. -/
def sampleImageL : PILImage :=
  { mode := "L", width := 2, height := 1, pixels := [[7], [9]] }

/-- A trivial conversion oracle (never consulted for an L-mode image,
whose mode is directly supported). -/
def sampleConvert : PILImage → String → PILImage :=
  fun img _ => img

/-- Counterexample to C8 as stated: for a concrete grayscale image, the
bitmap produced by `from_pil` is *not* library-owned — closing it does not
free the buffer (`closeFreesBuffer` is `false`, not `true`), because
`from_pil` hands the copied bytes to `new_native` as an external buffer,
which wraps them with `needs_free = False`. -/
theorem from_pil_not_library_owned :
    (from_pil sampleConvert sampleLib sampleImageL).map PdfBitmap.closeFreesBuffer ≠
      .ok true
  ∧ (from_pil sampleConvert sampleLib sampleImageL).map PdfBitmap.closeFreesBuffer =
      .ok false := by
  have heq : (from_pil sampleConvert sampleLib sampleImageL).map
      PdfBitmap.closeFreesBuffer = .ok false := rfl
  refine ⟨?_, heq⟩
  rw [heq]
  intro hc
  exact Bool.false_ne_true (Except.ok.inj hc)

/-- C8 as amended: every bitmap produced by `from_pil` carries a fresh
copy of the (possibly converted) image's pixel data — `tobytes()`, a copy,
never a view — but the buffer is wrapper-owned, not library-owned:
`needs_free` is `False` and closing the bitmap does not free it. -/
theorem from_pil_buffer_ownership :
    ∀ (convert : PILImage → String → PILImage) (lib : PdfiumLib)
      (img : PILImage) (bm : PdfBitmap),
      from_pil convert lib img = .ok bm →
        bm.needs_free = false ∧ bm.closeFreesBuffer = false ∧
        bm.buffer = pilTobytes (from_pil_resolved convert img).1 := by
  intro convert lib img bm hok
  simp only [from_pil] at hok
  split at hok
  · cases hok
  · have h := new_native_ok_meta _ _ _ _ _ _ _ _ hok
    exact ⟨h.1, h.1, h.2⟩

/-- Witness for C8 (amended): the concrete grayscale image yields a bitmap
holding the copied bytes `[7, 9]` with `needs_free = false`. -/
theorem from_pil_buffer_ownership_witness :
    ∃ bm, from_pil sampleConvert sampleLib sampleImageL = .ok bm ∧
      bm.needs_free = false ∧ bm.closeFreesBuffer = false ∧
      bm.buffer = [7, 9] := by
  obtain ⟨bm, hbm⟩ : ∃ bm, from_pil sampleConvert sampleLib sampleImageL = .ok bm :=
    ⟨_, rfl⟩
  have h := from_pil_buffer_ownership sampleConvert sampleLib sampleImageL bm hbm
  exact ⟨bm, hbm, h.1, h.2.1, h.2.2.trans rfl⟩

/-- Concrete version.json data for a plain release install. -/
def sampleVersionData : VersionData :=
  { major := 4, minor := 30, patch := 0, beta := none, n_commits := 0,
    commit_hash := none, dirty := false, data_source := "git",
    is_editable := some false }

/-- C7 (code evaluated at the failing input): the version record is *not*
frozen.  `__init__` stores `frozen_setattr` in the instance dictionary,
but Python looks implicit `__setattr__` invocations up on the type, so the
attribute assignment statement silently succeeds and mutates the field —
only an explicit `obj.__setattr__(...)` call would hit the stored closure
and raise. -/
theorem version_record_mutation_not_blocked :
    dictGet (version_pypdfium2_init sampleVersionData) "__setattr__" =
      some .vfrozenSetattrFn
  ∧ dictGet (version_pypdfium2_init sampleVersionData) "major" = some (.vint 4)
  ∧ dictGet (attrAssignStmt (version_pypdfium2_init sampleVersionData)
      "major" (.vint 99)) "major" = some (.vint 99)
  ∧ explicitSetattrCall (version_pypdfium2_init sampleVersionData)
      "major" (.vint 99) =
      .error "Version class is immutable - assignment not allowed" :=
  ⟨rfl, rfl, rfl, rfl⟩

/-! ## Colour utility proofs -/

theorem foldl_hex_shift (l : List Char) :
    ∀ acc : Nat, l.foldl (fun acc ch => 16 * acc + hexCharVal ch) acc =
      acc * 16 ^ l.length + l.foldl (fun acc ch => 16 * acc + hexCharVal ch) 0 := by
  induction l with
  | nil => intro acc; simp
  | cons ch t ih =>
      intro acc
      simp only [List.foldl_cons, List.length_cons]
      rw [ih (16 * acc + hexCharVal ch), ih (16 * 0 + hexCharVal ch)]
      ring

set_option maxRecDepth 100000 in
theorem hex_digits_val :
    ∀ c : Nat, c < 256 →
      pyIntOfHexDigits (hex_digits c) = c ∧ (hex_digits c).length = 2 := by
  decide

theorem hex_digits_foldl (c : Nat) (hc : c < 256) (acc : Nat) :
    (hex_digits c).foldl (fun acc ch => 16 * acc + hexCharVal ch) acc =
      acc * 256 + c := by
  rw [foldl_hex_shift, (hex_digits_val c hc).2]
  have hval : (hex_digits c).foldl (fun acc ch => 16 * acc + hexCharVal ch) 0 = c :=
    (hex_digits_val c hc).1
  rw [hval]
  norm_num

/-- C10: for channel values in 0..255, `colour_as_hex` packs them as
8888 ARGB, returning exactly `a * 2^24 + r * 2^16 + g * 2^8 + b`; any
argument outside 0..255 fails the assertion before a value is produced
(the `isinstance(c, int)` half of the assertion is captured by the `Int`
argument type of the embedding). -/
theorem colour_as_hex_spec :
    ∀ r g b a : Int,
      (((0 ≤ r ∧ r ≤ 255) ∧ (0 ≤ g ∧ g ≤ 255) ∧ (0 ≤ b ∧ b ≤ 255) ∧
          (0 ≤ a ∧ a ≤ 255)) →
        colour_as_hex r g b a = .ok (a * 2 ^ 24 + r * 2 ^ 16 + g * 2 ^ 8 + b))
  ∧ (¬ ((0 ≤ r ∧ r ≤ 255) ∧ (0 ≤ g ∧ g ≤ 255) ∧ (0 ≤ b ∧ b ≤ 255) ∧
          (0 ≤ a ∧ a ≤ 255)) →
        colour_as_hex r g b a = .error .assertionError) := by
  intro r g b a
  constructor
  · rintro ⟨⟨hr0, hr1⟩, ⟨hg0, hg1⟩, ⟨hb0, hb1⟩, ⟨ha0, ha1⟩⟩
    have hmem : ∀ c ∈ [a, r, g, b], 0 ≤ c ∧ c ≤ 255 := by
      intro c hc
      simp only [List.mem_cons, List.not_mem_nil, or_false] at hc
      rcases hc with rfl | rfl | rfl | rfl <;> exact ⟨by assumption, by assumption⟩
    have hra : a.toNat < 256 := by omega
    have hrr : r.toNat < 256 := by omega
    have hrg : g.toNat < 256 := by omega
    have hrb : b.toNat < 256 := by omega
    simp only [colour_as_hex]
    rw [dif_pos hmem]
    have hfold :
        List.foldl (fun acc c => acc ++ hex_digits c.toNat) [] [a, r, g, b] =
          ((hex_digits a.toNat ++ hex_digits r.toNat) ++ hex_digits g.toNat) ++
            hex_digits b.toNat := by
      simp [List.foldl_cons, List.foldl_nil]
    rw [hfold]
    have hval :
        pyIntOfHexDigits
          (((hex_digits a.toNat ++ hex_digits r.toNat) ++ hex_digits g.toNat) ++
            hex_digits b.toNat) =
          ((a.toNat * 256 + r.toNat) * 256 + g.toNat) * 256 + b.toNat := by
      unfold pyIntOfHexDigits
      rw [List.foldl_append, List.foldl_append, List.foldl_append]
      rw [hex_digits_foldl a.toNat hra 0, hex_digits_foldl r.toNat hrr,
          hex_digits_foldl g.toNat hrg, hex_digits_foldl b.toNat hrb]
      norm_num
    rw [hval]
    congr 1
    push_cast [Int.toNat_of_nonneg hr0, Int.toNat_of_nonneg hg0,
      Int.toNat_of_nonneg hb0, Int.toNat_of_nonneg ha0]
    ring
  · intro hnot
    simp only [colour_as_hex]
    rw [dif_neg]
    intro hmem
    exact hnot ⟨hmem r (by simp), hmem g (by simp), hmem b (by simp),
      hmem a (by simp)⟩

/-- Witness for C10: a concrete in-range colour packs to the ARGB value,
and an out-of-range red channel trips the assertion. -/
theorem colour_as_hex_spec_witness :
    colour_as_hex 255 0 127 4 = .ok (4 * 2 ^ 24 + 255 * 2 ^ 16 + 0 * 2 ^ 8 + 127)
  ∧ colour_as_hex 300 0 0 255 = .error .assertionError :=
  ⟨(colour_as_hex_spec 255 0 127 4).1 (by norm_num),
   (colour_as_hex_spec 300 0 0 255).2 (by norm_num)⟩

end Pypdfium2
